import Mathlib

/-!
Verification of the Device Manager subsystem of the kata-containers
runtime-rs hypervisor crate.

Shallow embedding of:
  * `src/runtime-rs/crates/hypervisor/src/device/generic.rs`
    (`GenericConfig`, `GenericDevice`, attach counting)
  * `src/runtime-rs/crates/hypervisor/src/device/block.rs`
    (`BlockConfig`, `BlockDevice`, block attach/detach)
  * `src/runtime-rs/crates/hypervisor/src/device_manager.rs`
    (`DeviceManager` and its operations)
  * `src/runtime-rs/crates/hypervisor/src/utils.rs` (`get_virt_drive_name`)

Rust `u64` counters are modelled as `Nat`; the source guards every
increment with an explicit `u64::MAX` test, so no wrap can occur on the
attach counter.  The sandbox `block_index` increment is taken modulo
`2 ^ 64` to mirror `u64` arithmetic.  Fallible Rust functions returning
`anyhow::Result` are modelled with `Except String`.  Methods that mutate
`&mut self` are modelled by returning the updated value; `&mut self`
methods whose error path leaves the receiver untouched return only
`Except.error`, and callers keep the old value, exactly as Rust does.

The registry `HashMap<String, Arc<Mutex<Box<dyn Device>>>>` is modelled
as an association list with unique keys.  The `Arc` aliasing between the
map entry and the local `dev` handle inside `try_add_device` /
`try_remove_device` is modelled by writing every device mutation back
into the map at the device's id (the manager only ever inserts a device
under its own id, so the key of the aliased entry is the device id).
-/

namespace KataDevice

/-- Rust `u64::MAX`. -/
def u64Max : Nat := 18446744073709551615

/-- Rust `2 ^ 64`, the modulus of `u64` arithmetic. -/
def u64Size : Nat := 18446744073709551616

/-- The Rust cast `index as i32` applied to a `u64` value (truncate to 32
bits, reinterpret as two's complement signed). -/
def u64ToI32 (n : Nat) : Int :=
  let r := n % 4294967296
  if r < 2147483648 then (r : Int) else (r : Int) - 4294967296

/-! ### Association-list model of `HashMap<String, V>` -/

/-- Rust `HashMap::get`: first value stored under key `k`. -/
def alistLookup {α : Type} : List (String × α) → String → Option α
  | [], _ => none
  | (k', v) :: rest, k => if k' = k then some v else alistLookup rest k

/-- Rust `HashMap::insert`: replace the entry for `k` if present, else append. -/
def alistInsert {α : Type} : List (String × α) → String → α → List (String × α)
  | [], k, v => [(k, v)]
  | (k', v') :: rest, k, v =>
    if k' = k then (k, v) :: rest else (k', v') :: alistInsert rest k v

/-- Overwrite the entry for `k` when present; no-op when absent.  Used to
model a mutation performed through an `Arc` handle that aliases the map
entry stored under `k`. -/
def alistUpdate {α : Type} : List (String × α) → String → α → List (String × α)
  | [], _, _ => []
  | (k', v') :: rest, k, v =>
    if k' = k then (k, v) :: rest else (k', v') :: alistUpdate rest k v

/-- Rust `HashMap::remove` (keys are unique, so removing every occurrence of
`k` agrees with removing the single entry). -/
def alistRemove {α : Type} : List (String × α) → String → List (String × α)
  | [], _ => []
  | (k', v') :: rest, k =>
    if k' = k then alistRemove rest k else (k', v') :: alistRemove rest k

/-! ### `generic.rs`: configuration and the generic device -/

/-- Rust `IoLimits` (generic.rs). -/
structure IoLimits where
  read_iops : Option Nat
  write_iops : Option Nat
  read_bps : Option Nat
  write_bps : Option Nat
deriving DecidableEq, Repr

/-- Rust `GenericConfig` (generic.rs): device data common to all kinds.
`driver_options` models the `HashMap<String, String>`. -/
structure GenericConfig where
  host_path : String
  container_path : String
  dev_type : String
  major : Int
  minor : Int
  file_mode : Nat
  uid : Nat
  gid : Nat
  id : String
  bdf : Option String
  driver_options : List (String × String)
  io_limits : Option IoLimits
  pci_addr : Option String
  virt_path : Option String
deriving DecidableEq, Repr

/-- Rust `GenericDevice` (generic.rs). -/
structure GenericDevice where
  id : String
  device_info : GenericConfig
  attach_count : Nat
deriving DecidableEq, Repr

/-- Rust `GenericDevice::new`. -/
def GenericDevice.new (dev_info : GenericConfig) : GenericDevice :=
  { id := dev_info.id, device_info := dev_info, attach_count := 0 }

/-- Rust `GenericDevice::increase_attach_count`.  The match arms of the source
(`0`, `u64::MAX`, `_`) are rendered as an if-chain; the error arm returns
before touching the counter, so on error the device is unchanged. -/
def genIncrease (g : GenericDevice) : Except String (GenericDevice × Bool) :=
  if g.attach_count = 0 then
    .ok ({ g with attach_count := 1 }, false)
  else if g.attach_count = u64Max then
    .error "device was attached too many times"
  else
    .ok ({ g with attach_count := g.attach_count + 1 }, true)

/-- Rust `GenericDevice::decrease_attach_count`. -/
def genDecrease (g : GenericDevice) : Except String (GenericDevice × Bool) :=
  if g.attach_count = 0 then
    .error "detaching a device that wasn't attached"
  else if g.attach_count = 1 then
    .ok ({ g with attach_count := 0 }, false)
  else
    .ok ({ g with attach_count := g.attach_count - 1 }, true)

/-! ### `block.rs`: block configuration and device -/

/-- Rust `BlockConfig` (block.rs). -/
structure BlockConfig where
  id : String
  path_on_host : String
  is_readonly : Bool
  no_drop : Bool
  index : Nat
deriving DecidableEq, Repr

/-- The `BlockConfig` built by `BlockDevice::new` (remaining fields take
`Default::default()`). -/
def BlockConfig.ofInfo (dev_info : GenericConfig) : BlockConfig :=
  { id := dev_info.id
    path_on_host := dev_info.host_path
    is_readonly := false
    no_drop := false
    index := 0 }

/-- The `dyn Device` trait object: only `BlockDevice` and `GenericDevice`
are constructed by the manager. -/
inductive Dev : Type where
  | block (drive : BlockConfig) (base : GenericDevice)
  | generic (base : GenericDevice)
deriving DecidableEq, Repr

/-- Rust `device_id()`. -/
def devId : Dev → String
  | .block _ base => base.id
  | .generic base => base.id

/-- Rust `get_device_info()` — both impls return `Ok(self.device_info.clone())`,
i.e. a fresh copy of the stored configuration. -/
def devInfo : Dev → GenericConfig
  | .block _ base => base.device_info
  | .generic base => base.device_info

/-- Rust `get_major_minor()`. -/
def devMajorMinor : Dev → Int × Int
  | .block _ base => (base.device_info.major, base.device_info.minor)
  | .generic base => (base.device_info.major, base.device_info.minor)

/-- Rust `get_host_path()`. -/
def devHostPath : Dev → String
  | .block _ base => base.device_info.host_path
  | .generic base => base.device_info.host_path

/-- Rust `get_bdf()`. -/
def devBdf : Dev → Option String
  | .block _ base => base.device_info.bdf
  | .generic base => base.device_info.bdf

/-- Rust `get_attach_count()`. -/
def devAttachCount : Dev → Nat
  | .block _ base => base.attach_count
  | .generic base => base.attach_count

/-- Rust `increase_attach_count()` on the trait object (both impls delegate to
the generic base). -/
def devIncrease : Dev → Except String (Dev × Bool)
  | .block drive base =>
    match genIncrease base with
    | .error e => .error e
    | .ok (base', skip) => .ok (.block drive base', skip)
  | .generic base =>
    match genIncrease base with
    | .error e => .error e
    | .ok (base', skip) => .ok (.generic base', skip)

/-- Rust `decrease_attach_count()` on the trait object. -/
def devDecrease : Dev → Except String (Dev × Bool)
  | .block drive base =>
    match genDecrease base with
    | .error e => .error e
    | .ok (base', skip) => .ok (.block drive base', skip)
  | .generic base =>
    match genDecrease base with
    | .error e => .error e
    | .ok (base', skip) => .ok (.generic base', skip)

/-! ### `utils.rs`: `get_virt_drive_name` -/

/-- The `while i < suff_len && index >= 0` loop of `get_virt_drive_name`.
`fuel` is the number of free suffix slots left (`suff_len - i`); the
current index is non-negative on entry (guarded by the caller), so it is
carried as a `Nat`.  The update `index = index / 26 - 1` makes the `i32`
index negative exactly when `index / 26 == 0`; the returned `Option Nat`
is the final non-negative index when the loop stopped with `index >= 0`
(i.e. it ran out of slots), and `none` when the index went negative.
Letters are returned in generation order (least significant first). -/
def driveLoop : Nat → Nat → List Char × Option Nat
  | 0, n => ([], some n)
  | fuel + 1, n =>
    let letter := Char.ofNat (97 + n % 26)
    if n / 26 = 0 then ([letter], none)
    else
      let r := driveLoop fuel (n / 26 - 1)
      (letter :: r.1, r.2)

/-- Rust `get_virt_drive_name` (utils.rs): `disk_name_len = 32`, prefixed by
`"vd"`, so 30 suffix slots. -/
def getVirtDriveName (index : Int) : Except String String :=
  if index < 0 then .error "Index cannot be negative"
  else
    match driveLoop 30 index.toNat with
    | (_, some _) => .error "Index not supported"
    | (letters, none) => .ok ("vd" ++ String.mk letters.reverse)

/-- Spec-side definition: the number of letters of the biased base-26
suffix for index `n` (one letter per loop iteration of the source,
unbounded by any slot capacity). -/
def suffLen (n : Nat) : Nat :=
  if n / 26 = 0 then 1 else 1 + suffLen (n / 26 - 1)
termination_by n
decreasing_by
  have hpos : 0 < n := by
    rcases Nat.eq_zero_or_pos n with h0 | h0
    · subst h0; simp_all
    · exact h0
  have := Nat.div_lt_self hpos (by norm_num : 1 < 26)
  omega

/-! ### `device_manager.rs`: sysfs host-path resolution -/

/-- What the host filesystem holds at a sysfs uevent path: the file is
absent, `fs::metadata` fails with a non-NotFound error, or the file
exists and parses as an ini file (`none` section means the parse has no
section; the list is the flat key=value content of the default
section). -/
inductive SysfsNode : Type where
  | missing
  | statErr (e : String)
  | file (sect : Option (List (String × String)))
deriving DecidableEq, Repr

/-- Rust `get_host_path` (device_manager.rs), with the host filesystem
abstracted as a map from path to `SysfsNode`. -/
def getHostPath (sysfs : String → SysfsNode) (dev_info : GenericConfig) :
    Except String String :=
  if dev_info.container_path = "" then .error "Empty path provided for device"
  else
    let comp? : Option String :=
      if dev_info.dev_type = "c" ∨ dev_info.dev_type = "u" then some "char"
      else if dev_info.dev_type = "b" then some "block"
      else none
    match comp? with
    | none => .ok ""
    | some comp =>
      let p := "/sys/dev/" ++ comp ++ "/" ++ toString dev_info.major ++ ":"
        ++ toString dev_info.minor ++ "/uevent"
      match sysfs p with
      | .missing => .ok dev_info.container_path
      | .statErr e => .error e
      | .file none => .error "has no section"
      | .file (some kvs) =>
        match alistLookup kvs "DEVNAME" with
        | some name => .ok ("/dev/" ++ name)
        | none => .error "has no DEVNAME"

/-! ### The hypervisor collaborator -/

/-- The `Hypervisor` trait as consumed by this code: the manager only ever
sends `DeviceConfig::Block` payloads, so both methods take a
`BlockConfig`. -/
structure Hypervisor where
  addDevice : BlockConfig → Except String Unit
  removeDevice : BlockConfig → Except String Unit

/-- Rust `DeviceArgument` (device/mod.rs). -/
structure DeviceArgument where
  index : Option Nat
  drive_name : Option String
deriving DecidableEq, Repr

/-- The local mutation performed by `BlockDevice::attach` on the value
returned by `self.base.get_device_info()`.  Since `get_device_info`
returns `Ok(self.device_info.clone())`, this mutation acts on a clone
that is dropped at the end of `attach`: it is never written back into the
device. -/
def blockAttachLocalInfo (info : GenericConfig) (da : DeviceArgument) :
    GenericConfig :=
  match alistLookup info.driver_options "block-driver" with
  | some driver =>
    if driver ≠ "nvdimm" then
      match da.drive_name with
      | some drive_name => { info with virt_path := some ("/dev/" ++ drive_name) }
      | none => info
    else info
  | none => info

/-- Rust `Device::attach` on the trait object.  The returned `Dev` is the
device after the call (mutations through the `Arc` persist even when the
call errors). -/
def devAttach (d : Dev) (h : Hypervisor) (da : DeviceArgument) :
    Dev × Except String Unit :=
  match d with
  | .block drive base =>
    -- BlockDevice::attach (block.rs)
    let drive1 := match da.index with
      | some i => { drive with index := i }
      | none => drive
    let _localInfo := blockAttachLocalInfo base.device_info da
    (.block drive1 base, h.addDevice drive1)
  | .generic base =>
    -- GenericDevice::attach (generic.rs): only advances the counter
    match genIncrease base with
    | .error e => (.generic base, .error e)
    | .ok (base1, skip) =>
      if skip then (.generic base1, .ok ())
      else (.generic base1, .error ("Failed to attach device \"" ++ base.id ++ "\""))

/-- Rust `Device::detach` on the trait object. -/
def devDetach (d : Dev) (h : Hypervisor) : Dev × Except String Unit :=
  match d with
  | .block drive base => (.block drive base, h.removeDevice drive)
  | .generic base =>
    match genDecrease base with
    | .error e => (.generic base, .error e)
    | .ok (base1, skip) =>
      if skip then (.generic base1, .ok ())
      else (.generic base1, .error ("Failed to detach device \"" ++ base.id ++ "\""))

/-! ### `device_manager.rs`: the DeviceManager -/

/-- Rust `VIRTIO_MMIO`. -/
def VIRTIO_MMIO : String := "virtio-mmio"

/-- Rust `VIRTIO_BLOCK`. -/
def VIRTIO_BLOCK : String := "virtio-blk"

/-- Rust `DeviceManager`.  `devices` is the `HashMap<String, ArcBoxDevice>` as
an association list with unique keys; `released_index : Vec<u64>`. -/
structure DeviceManager where
  block_driver : String
  devices : List (String × Dev)
  block_index : Nat
  released_index : List Nat
deriving Repr

/-- Rust `DeviceManager::new`: the match accepts only `VIRTIO_MMIO`
("other block driver is not avaliable currently"); every other string is
rejected. -/
def DeviceManager.new (block_driver : String) : Except String DeviceManager :=
  if block_driver = VIRTIO_MMIO then
    .ok { block_driver := VIRTIO_MMIO, devices := [], block_index := 0,
          released_index := [] }
  else .error ("Unsupported block driver " ++ block_driver)

/-- Rust `Vec::pop`: removes and returns the LAST element. -/
def vecPop (l : List Nat) : Option (Nat × List Nat) :=
  match l.getLast? with
  | some x => some (x, l.dropLast)
  | none => none

/-- Insertion step of a descending sort. -/
def insertDesc (x : Nat) : List Nat → List Nat
  | [] => [x]
  | y :: ys => if x ≥ y then x :: y :: ys else y :: insertDesc x ys

/-- Rust `sort_by(|a, b| b.cmp(a))`: sort descending.  Over `Nat` (duplicates
indistinguishable) every sorting algorithm returns the same list, so this
insertion sort is extensionally the source's `Vec::sort_by`. -/
def sortDesc (l : List Nat) : List Nat := l.foldr insertDesc []

/-- Rust `DeviceManager::get_and_set_sandbox_block_index`.  Returns the updated
manager together with the result; the error arm (pop on a non-empty vec
returning `None`) is unreachable but modelled. -/
def getAndSetSandboxBlockIndex (m : DeviceManager) :
    DeviceManager × Except String Nat :=
  let current_index := m.block_index
  if m.released_index.isEmpty then
    ({ m with block_index := (m.block_index + 1) % u64Size }, .ok current_index)
  else
    match vecPop m.released_index with
    | some (index, rest) => ({ m with released_index := rest }, .ok index)
    | none => (m, .error "failed to get block index")

/-- Rust `DeviceManager::unset_sandbox_block_index`: push then sort descending.
The source returns `Result<()>` but never errs. -/
def unsetSandboxBlockIndex (m : DeviceManager) (index : Nat) : DeviceManager :=
  { m with released_index := sortDesc (m.released_index ++ [index]) }

/-- Rust `DeviceManager::find_device_by_major_minor` (first match in iteration
order). -/
def findByMajorMinor : List (String × Dev) → Int → Int → Option Dev
  | [], _, _ => none
  | (_, d) :: rest, major, minor =>
    if devMajorMinor d = (major, minor) then some d
    else findByMajorMinor rest major minor

/-- Rust `DeviceManager::find_device_by_bdf`. -/
def findByBdf : List (String × Dev) → Option String → Option Dev
  | [], _ => none
  | (_, d) :: rest, bdf =>
    if devBdf d = bdf then some d else findByBdf rest bdf

/-- Rust `DeviceManager::find_device_by_host_path`. -/
def findByHostPath : List (String × Dev) → String → Option Dev
  | [], _ => none
  | (_, d) :: rest, host_path =>
    if host_path = devHostPath d then some d else findByHostPath rest host_path

/-- Rust `DeviceManager::find_device`: the probe priority of the source —
(major, minor) when both are non-negative, else BDF when set, else host
path. -/
def findDevice (devices : List (String × Dev)) (major minor : Int)
    (host_path : String) (bdf : Option String) : Option Dev :=
  if major ≥ 0 ∧ minor ≥ 0 then findByMajorMinor devices major minor
  else if bdf.isSome then findByBdf devices bdf
  else findByHostPath devices host_path

/-- One round of `DeviceManager::new_device_id`'s 5-attempt loop.
`draws k` is the random hex string produced on attempt `k`. -/
def newDeviceIdGo (devices : List (String × Dev)) (draws : Nat → String) :
    Nat → Nat → Except String String
  | _, 0 => .error "ID are exhausted"
  | k, fuel + 1 =>
    let id := draws k
    if (alistLookup devices id).isNone then .ok id
    else newDeviceIdGo devices draws (k + 1) fuel

/-- Rust `DeviceManager::new_device_id`. -/
def newDeviceId (devices : List (String × Dev)) (draws : Nat → String) :
    Except String String :=
  newDeviceIdGo devices draws 0 5

/-- The first step of `try_create_device`: resolve `host_path` through
sysfs when `major != 0 || minor != 0`. -/
def resolveInfo (sysfs : String → SysfsNode) (dev_info : GenericConfig) :
    Except String GenericConfig :=
  if dev_info.major ≠ 0 ∨ dev_info.minor ≠ 0 then
    match getHostPath sysfs dev_info with
    | .error e => .error e
    | .ok path => .ok { dev_info with host_path := path }
  else .ok dev_info

/-- Rust `DeviceManager::try_create_device`: resolve the host path, probe for
an existing device, otherwise mint an id and build a `BlockDevice`
(`dev_type == "b"`, with `driver_options["block-driver"]` set to the
manager's driver) or a `GenericDevice`.  Returns the device id together
with the device; for a found device, that device is the one stored in the
registry (the Rust `Arc` is cloned out of the map). -/
def tryCreateDevice (m : DeviceManager) (dev_info : GenericConfig)
    (sysfs : String → SysfsNode) (draws : Nat → String) :
    Except String (String × Dev) :=
  match resolveInfo sysfs dev_info with
  | .error e => .error e
  | .ok info1 =>
    match findDevice m.devices info1.major info1.minor info1.host_path info1.bdf with
    | some d => .ok (devId d, d)
    | none =>
      match newDeviceId m.devices draws with
      | .error e => .error e
      | .ok id =>
        let info2 := { info1 with id := id }
        if info2.dev_type = "b" then
          let opts := alistInsert info2.driver_options "block-driver" m.block_driver
          let infoB := { info2 with driver_options := opts }
          .ok (id, .block (BlockConfig.ofInfo infoB) (GenericDevice.new infoB))
        else
          .ok (id, .generic (GenericDevice.new info2))

/-- Rust `DeviceManager::attach_device`: look the device up, call its `attach`,
write the (possibly mutated) device back.  Mutations persist even when
`attach` errors — the Rust mutation happens through the shared `Arc`. -/
def attachDevice (m : DeviceManager) (id : String) (h : Hypervisor)
    (da : DeviceArgument) : DeviceManager × Except String Unit :=
  match alistLookup m.devices id with
  | some d =>
    let r := devAttach d h da
    ({ m with devices := alistUpdate m.devices id r.1 }, r.2)
  | none =>
    (m, .error ("device with specified ID hasn't been created. " ++ id))

/-- Rust `DeviceManager::try_add_device`.  `sysfs` abstracts the host
filesystem, `draws` the random id generator.  The returned manager is the
state after the call, also on the error paths (Rust mutates `&mut self`
in place).  After `increase_attach_count` the device is written back at
its id (no-op when the device is fresh and not yet in the map, exactly
the `Arc` aliasing of the source). -/
def tryAddDevice (m : DeviceManager) (dev_info : GenericConfig)
    (h : Hypervisor) (sysfs : String → SysfsNode) (draws : Nat → String) :
    DeviceManager × Except String String :=
  match tryCreateDevice m dev_info sysfs draws with
  | .error e => (m, .error e)
  | .ok (id, d0) =>
    match devIncrease d0 with
    | .error e => (m, .error e)
    | .ok (d1, skip) =>
      let mU := { m with devices := alistUpdate m.devices id d1 }
      if skip then (mU, .ok id)
      else
        let mI := { mU with devices := alistInsert mU.devices id d1 }
        match getAndSetSandboxBlockIndex mI with
        | (mJ, .error e) => (mJ, .error e)
        | (mJ, .ok index) =>
          match getVirtDriveName (u64ToI32 index) with
          | .error e => (mJ, .error e)
          | .ok drive_name =>
            match attachDevice mJ id h
                { index := some index, drive_name := some drive_name } with
            | (mK, .ok _) => (mK, .ok id)
            | (mK, .error e) =>
              -- rollback: decrease the count through the Arc, release the
              -- ordinal, remove the record
              let dK := (alistLookup mK.devices id).getD d1
              match devDecrease dK with
              | .error e2 => (mK, .error e2)
              | .ok (d2, _) =>
                let mL := { mK with devices := alistUpdate mK.devices id d2 }
                let mM := unsetSandboxBlockIndex mL index
                ({ mM with devices := alistRemove mM.devices id }, .error e)

/-- Rust `DeviceManager::try_remove_device`. -/
def tryRemoveDevice (m : DeviceManager) (device_id : String) (h : Hypervisor) :
    DeviceManager × Except String Unit :=
  match alistLookup m.devices device_id with
  | none =>
    (m, .error ("device with specified ID hasn't been created. " ++ device_id))
  | some d =>
    match devDecrease d with
    | .error e => (m, .error e)
    | .ok (d1, skip) =>
      let m1 := { m with devices := alistUpdate m.devices device_id d1 }
      if skip then (m1, .ok ())
      else
        let r := devDetach d1 h
        let m2 := { m1 with devices := alistUpdate m1.devices device_id r.1 }
        match r.2 with
        | .error e =>
          match devIncrease r.1 with
          | .error e2 => (m2, .error e2)
          | .ok (d3, _) =>
            ({ m2 with devices := alistUpdate m2.devices device_id d3 }, .error e)
        | .ok _ =>
          ({ m2 with devices := alistRemove m2.devices device_id }, .ok ())

/-- The agent-facing `Device` record (`agent::types::Device`); only the
fields this code sets are modelled. -/
structure AgentDevice where
  id : String
  container_path : String
  field_type : String
  vm_path : String
deriving DecidableEq, Repr

/-- Rust `DeviceManager::generate_agent_device`.  The source calls
`.unwrap()` on `get_device_by_id`, which panics when the id is not
registered; the panic is modelled as `none`. -/
def generateAgentDevice (m : DeviceManager) (device_id : String) :
    Option AgentDevice :=
  match alistLookup m.devices device_id with
  | none => none
  | some d =>
    let base_info := devInfo d
    let device : AgentDevice :=
      { id := "", container_path := base_info.container_path,
        field_type := "", vm_path := "" }
    some (
      if m.block_driver = VIRTIO_MMIO then
        match base_info.virt_path with
        | some path =>
          { device with id := device_id, field_type := "mmioblk", vm_path := path }
        | none => device
      else if m.block_driver = VIRTIO_BLOCK then
        match base_info.pci_addr with
        | some path =>
          { device with id := device_id, field_type := "blk", vm_path := path }
        | none => device
      else device)

/-- Rust `DeviceManager::get_device_guest_path`. -/
def getDeviceGuestPath (m : DeviceManager) (id : String) : Option String :=
  match alistLookup m.devices id with
  | some d => (devInfo d).virt_path
  | none => none

/-! ### Concrete scenario ingredients shared by several claims -/

/-- A host filesystem with no sysfs entries at all (every `stat` reports
NotFound, the pass-through convention applies). -/
def sysfsAbsent : String → SysfsNode := fun _ => SysfsNode.missing

/-- A deterministic id supply for the random generator: attempt `k`
draws the string `toString k`. -/
def draws0 : Nat → String := fun k => toString k

/-- A hypervisor whose hot-plug and hot-unplug always succeed. -/
def hOk : Hypervisor :=
  { addDevice := fun _ => .ok (), removeDevice := fun _ => .ok () }

/-- A hypervisor whose hot-plug fails. -/
def hFail : Hypervisor :=
  { addDevice := fun _ => .error "hypervisor add failed",
    removeDevice := fun _ => .ok () }

/-- The freshly constructed virtio-mmio manager
(`DeviceManager::new(VIRTIO_MMIO)`). -/
def mkMmio : DeviceManager :=
  { block_driver := VIRTIO_MMIO, devices := [], block_index := 0,
    released_index := [] }

/-- The S1 block-device descriptor:
`{type: "b", major: 8, minor: 0, container_path: "/dev/sda"}`. -/
def blockInfo : GenericConfig :=
  { host_path := "", container_path := "/dev/sda", dev_type := "b",
    major := 8, minor := 0, file_mode := 0, uid := 0, gid := 0, id := "",
    bdf := none, driver_options := [], io_limits := none,
    pci_addr := none, virt_path := none }

/-- Result of adding the S1 block device to the fresh manager with a
succeeding hypervisor. -/
def addRes : DeviceManager × Except String String :=
  tryAddDevice mkMmio blockInfo hOk sysfsAbsent draws0

/-- The configuration stored for the S1 block device after the add:
host path resolved to the container path (sysfs absent), id `"0"`,
`driver_options["block-driver"] = "virtio-mmio"` — and `virt_path`
still `none`. -/
def storedBlockInfo : GenericConfig :=
  { host_path := "/dev/sda", container_path := "/dev/sda", dev_type := "b",
    major := 8, minor := 0, file_mode := 0, uid := 0, gid := 0, id := "0",
    bdf := none, driver_options := [("block-driver", "virtio-mmio")],
    io_limits := none, pci_addr := none, virt_path := none }

/-- The device record stored for the S1 block device after the add. -/
def storedBlockDev : Dev :=
  .block
    { id := "0", path_on_host := "/dev/sda", is_readonly := false,
      no_drop := false, index := 0 }
    { id := "0", device_info := storedBlockInfo, attach_count := 1 }

/-! ### Helper lemmas on the association list -/

theorem alistLookup_update_self {α : Type} (l : List (String × α)) (k : String)
    (v : α) (h : (alistLookup l k).isSome) :
    alistLookup (alistUpdate l k v) k = some v := by
  induction l with
  | nil => simp [alistLookup] at h
  | cons hd tl ih =>
    obtain ⟨k', v'⟩ := hd
    by_cases hk : k' = k
    · subst hk
      simp [alistUpdate, alistLookup]
    · simp only [alistLookup, if_neg hk] at h
      simp [alistUpdate, alistLookup, if_neg hk, ih h]

theorem alistLookup_remove_self {α : Type} (l : List (String × α)) (k : String) :
    alistLookup (alistRemove l k) k = none := by
  induction l with
  | nil => simp [alistRemove, alistLookup]
  | cons hd tl ih =>
    obtain ⟨k', v'⟩ := hd
    by_cases hk : k' = k
    · simpa [alistRemove, hk]
    · simp [alistRemove, alistLookup, if_neg hk, ih]

theorem alistUpdate_length {α : Type} (l : List (String × α)) (k : String)
    (v : α) : (alistUpdate l k v).length = l.length := by
  induction l with
  | nil => rfl
  | cons hd tl ih =>
    obtain ⟨k', v'⟩ := hd
    by_cases hk : k' = k
    · simp [alistUpdate, hk]
    · simp [alistUpdate, if_neg hk, ih]

/-- In a list sorted descending, the last element is a lower bound. -/
theorem getLast_le_of_pairwise_ge (l : List Nat)
    (hs : List.Pairwise (fun a b => a ≥ b) l) (hne : l ≠ []) :
    ∀ y ∈ l, l.getLast hne ≤ y := by
  induction l with
  | nil => cases hne rfl
  | cons a tl ih =>
    intro y hy
    cases tl with
    | nil =>
      simp at hy
      simp [List.getLast, hy]
    | cons b tl' =>
      rw [List.getLast_cons (by simp : b :: tl' ≠ [])]
      rcases List.mem_cons.mp hy with hya | hyt
      · subst hya
        have hhead : ∀ z ∈ b :: tl', y ≥ z := (List.pairwise_cons.mp hs).1
        have hmem := List.getLast_mem (show b :: tl' ≠ [] by simp)
        exact hhead _ hmem
      · exact ih (List.pairwise_cons.mp hs).2 (by simp) y hyt

/-! ### C1 -/

/-- C1: the claim fails on the code — the code is the slip.  Adding the S1
block device succeeds and the hypervisor attach runs with
`drive_name = "vda"`, but `BlockDevice::attach` mutates the clone
returned by `get_device_info()` (which the model makes explicit as
`blockAttachLocalInfo`, whose result would indeed carry
`virt_path = "/dev/vda"`), so the stored record's `virt_path` stays
`none`: `get_device_guest_path` returns `none` and
`generate_agent_device` yields a descriptor with empty `vm_path`. -/
theorem c1_block_attach_virt_path_dropped :
    addRes.2 = .ok "0"
    ∧ alistLookup addRes.1.devices "0" = some storedBlockDev
    ∧ (devInfo storedBlockDev).virt_path = none
    ∧ getDeviceGuestPath addRes.1 "0" = none
    ∧ generateAgentDevice addRes.1 "0" =
        some { id := "", container_path := "/dev/sda", field_type := "",
               vm_path := "" }
    ∧ (blockAttachLocalInfo (devInfo storedBlockDev)
        { index := some 0, drive_name := some "vda" }).virt_path =
        some "/dev/vda" :=
  ⟨rfl, rfl, rfl, rfl, rfl, rfl⟩

/-! ### C2 -/

/-- Removing the S1 block device from the post-add manager. -/
def rmRes : DeviceManager × Except String Unit :=
  tryRemoveDevice addRes.1 "0" hOk

/-- C2 counterexample: the S1 block device has attach count 1 and its
issued ordinal is 0; a successful `try_remove_device` removes the record
but leaves `released_index` empty — the ordinal 0 is NOT released, so a
later acquire cannot reuse it. -/
theorem c2_remove_does_not_release_ordinal_cex :
    (alistLookup addRes.1.devices "0").map devAttachCount = some 1
    ∧ rmRes.2 = .ok ()
    ∧ alistLookup rmRes.1.devices "0" = none
    ∧ rmRes.1.released_index = []
    ∧ (0 : Nat) ∉ rmRes.1.released_index := by
  refine ⟨rfl, rfl, rfl, rfl, ?_⟩
  decide

/-- C2 amended: for a registered block device with attach count 1 and a
succeeding hypervisor unplug, `try_remove_device` hot-unplugs and removes
the record, but does NOT put the ordinal into `released_index`
(`released_index` and `block_index` are untouched; the source only
releases ordinals in the attach-failure rollback of `try_add_device`). -/
theorem c2_remove_device_amended (m : DeviceManager) (id : String)
    (h : Hypervisor) (drive : BlockConfig) (base : GenericDevice)
    (hfind : alistLookup m.devices id = some (.block drive base))
    (hcount : base.attach_count = 1)
    (hrm : h.removeDevice drive = .ok ()) :
    (tryRemoveDevice m id h).2 = .ok ()
    ∧ alistLookup (tryRemoveDevice m id h).1.devices id = none
    ∧ (tryRemoveDevice m id h).1.released_index = m.released_index
    ∧ (tryRemoveDevice m id h).1.block_index = m.block_index := by
  have hdec : devDecrease (.block drive base) =
      .ok (.block drive { base with attach_count := 0 }, false) := by
    simp [devDecrease, genDecrease, hcount]
  simp [tryRemoveDevice, hfind, hdec, devDetach, hrm, alistLookup_remove_self]

/-- C2 amended, witness: the amended statement at the concrete S1
scenario. -/
theorem c2_remove_device_amended_witness :
    (tryRemoveDevice addRes.1 "0" hOk).2 = .ok ()
    ∧ alistLookup (tryRemoveDevice addRes.1 "0" hOk).1.devices "0" = none
    ∧ (tryRemoveDevice addRes.1 "0" hOk).1.released_index =
        addRes.1.released_index
    ∧ (tryRemoveDevice addRes.1 "0" hOk).1.block_index =
        addRes.1.block_index :=
  c2_remove_device_amended addRes.1 "0" hOk
    { id := "0", path_on_host := "/dev/sda", is_readonly := false,
      no_drop := false, index := 0 }
    { id := "0", device_info := storedBlockInfo, attach_count := 1 }
    rfl rfl rfl

/-! ### C3 -/

/-- A manager whose slot allocator has released ordinals 0 and then 1:
`released_index = [1, 0]` (sorted descending). -/
def c3m : DeviceManager :=
  unsetSandboxBlockIndex (unsetSandboxBlockIndex mkMmio 0) 1

/-- C3 counterexample: with `released_index = [1, 0]`, acquire returns 0
— `Vec::pop` takes the LAST element of the descending-sorted vec, i.e.
the SMALLEST released ordinal, not the largest as claimed. -/
theorem c3_acquire_returns_smallest_cex :
    c3m.released_index = [1, 0]
    ∧ (getAndSetSandboxBlockIndex c3m).2 = .ok 0
    ∧ (getAndSetSandboxBlockIndex c3m).2 ≠ .ok 1 := by
  refine ⟨rfl, rfl, ?_⟩
  intro hcontra
  have h01 : (0 : Nat) = 1 := Except.ok.inj hcontra
  exact absurd h01 (by decide)

/-- C3 amended: when `released_index` is non-empty (it is maintained
sorted descending), acquire pops its last element, which is the SMALLEST
released ordinal, leaving `block_index` unchanged; when it is empty,
acquire returns `block_index` and then increments it (mod `2 ^ 64`). -/
theorem c3_slot_allocator_amended (m : DeviceManager) :
    (m.released_index ≠ [] →
      List.Pairwise (fun a b => a ≥ b) m.released_index →
      ∃ x, (getAndSetSandboxBlockIndex m).2 = .ok x
        ∧ x ∈ m.released_index
        ∧ (∀ y ∈ m.released_index, x ≤ y)
        ∧ (getAndSetSandboxBlockIndex m).1.block_index = m.block_index
        ∧ (getAndSetSandboxBlockIndex m).1.released_index =
            m.released_index.dropLast)
    ∧ (m.released_index = [] →
      (getAndSetSandboxBlockIndex m).2 = .ok m.block_index
      ∧ (getAndSetSandboxBlockIndex m).1.block_index =
          (m.block_index + 1) % u64Size
      ∧ (getAndSetSandboxBlockIndex m).1.released_index = []) := by
  constructor
  · intro hne hs
    unfold getAndSetSandboxBlockIndex vecPop
    rcases hl : m.released_index with _ | ⟨a, tl⟩
    · exact absurd hl hne
    · rw [hl] at hs
      rw [List.getLast?_eq_getLast (a :: tl) (by simp)]
      refine ⟨(a :: tl).getLast (by simp), rfl, ?_, ?_, rfl, rfl⟩
      · exact List.getLast_mem (by simp)
      · exact getLast_le_of_pairwise_ge (a :: tl) hs (by simp)
  · intro he
    unfold getAndSetSandboxBlockIndex
    rw [he]
    exact ⟨rfl, rfl, rfl⟩

/-- C3 amended, witness: the non-empty branch at `released_index = [1, 0]`
and the empty branch at the fresh manager. -/
theorem c3_slot_allocator_amended_witness :
    (∃ x, (getAndSetSandboxBlockIndex c3m).2 = .ok x
      ∧ x ∈ c3m.released_index
      ∧ (∀ y ∈ c3m.released_index, x ≤ y)
      ∧ (getAndSetSandboxBlockIndex c3m).1.block_index = c3m.block_index
      ∧ (getAndSetSandboxBlockIndex c3m).1.released_index =
          c3m.released_index.dropLast)
    ∧ ((getAndSetSandboxBlockIndex mkMmio).2 = .ok mkMmio.block_index
      ∧ (getAndSetSandboxBlockIndex mkMmio).1.block_index =
          (mkMmio.block_index + 1) % u64Size
      ∧ (getAndSetSandboxBlockIndex mkMmio).1.released_index = []) :=
  ⟨(c3_slot_allocator_amended c3m).1 (by decide) (by decide),
   (c3_slot_allocator_amended mkMmio).2 rfl⟩

/-! ### C4 -/

/-- C4 counterexample: constructing a manager with
`block_driver = "virtio-blk"` fails — the source accepts only
`"virtio-mmio"` ("other block driver is not avaliable currently"). -/
theorem c4_virtio_blk_rejected_cex :
    DeviceManager.new VIRTIO_BLOCK =
      .error "Unsupported block driver virtio-blk" := rfl

/-- C4 amended: construction succeeds only for `"virtio-mmio"`; every
other string — `"virtio-blk"` included — fails with the
unsupported-block-driver error. -/
theorem c4_block_driver_amended :
    DeviceManager.new VIRTIO_MMIO = .ok mkMmio
    ∧ ∀ s : String, s ≠ VIRTIO_MMIO →
        DeviceManager.new s = .error ("Unsupported block driver " ++ s) := by
  refine ⟨rfl, ?_⟩
  intro s hs
  unfold DeviceManager.new
  rw [if_neg hs]

/-- C4 amended, witness at `"virtio-blk"`. -/
theorem c4_block_driver_amended_witness :
    DeviceManager.new VIRTIO_BLOCK =
      .error ("Unsupported block driver " ++ VIRTIO_BLOCK) :=
  c4_block_driver_amended.2 VIRTIO_BLOCK (by decide)

/-! ### C5 -/

/-- A second block descriptor sharing the container path (and hence, with
sysfs absent, the resolved host path) with the S1 descriptor, but with a
different minor number. -/
def c5info2 : GenericConfig := { blockInfo with minor := 16 }

/-- Adding the second descriptor after the S1 add. -/
def c5add2 : DeviceManager × Except String String :=
  tryAddDevice addRes.1 c5info2 hOk sysfsAbsent draws0

/-- C5 counterexample: the two descriptors resolve to the same non-empty
`host_path = "/dev/sda"`, yet the second add returns a fresh id `"1"`
(not the stored `"0"`) and the registry holds two records — the host-path
probe is shadowed by the (major, minor) probe whenever both numbers are
non-negative, so sharing a host path alone does not dedup. -/
theorem c5_dedup_probe_priority_cex :
    addRes.2 = .ok "0"
    ∧ c5add2.2 = .ok "1"
    ∧ (alistLookup c5add2.1.devices "0").map devHostPath = some "/dev/sda"
    ∧ (alistLookup c5add2.1.devices "1").map devHostPath = some "/dev/sda"
    ∧ ("/dev/sda" : String) ≠ ""
    ∧ c5add2.1.devices.length = 2
    ∧ ¬ (c5add2.2 = addRes.2 ∧ c5add2.1.devices.length = 1) := by
  refine ⟨rfl, rfl, rfl, rfl, by decide, rfl, ?_⟩
  intro hcontra
  have hlen : (2 : Nat) = 1 := by
    have h2 : c5add2.1.devices.length = 2 := rfl
    rw [h2] at hcontra
    exact hcontra.2
  exact absurd hlen (by decide)

/-- C5 amended: deduplication follows the probe priority of
`find_device` — by (major, minor) when both are non-negative, else by
BDF when set, else by host path.  Whenever the probe finds the stored
device (and its attach count is in `[1, u64::MAX)`, so the increment
skips), the second `try_add_device` returns the stored record's id and
the registry does not grow. -/
theorem c5_dedup_amended (m : DeviceManager) (info : GenericConfig)
    (h : Hypervisor) (sysfs : String → SysfsNode) (draws : Nat → String)
    (info1 : GenericConfig) (d d' : Dev)
    (hres : resolveInfo sysfs info = .ok info1)
    (hfind : findDevice m.devices info1.major info1.minor info1.host_path
        info1.bdf = some d)
    (hinc : devIncrease d = .ok (d', true)) :
    (tryAddDevice m info h sysfs draws).2 = .ok (devId d)
    ∧ (tryAddDevice m info h sysfs draws).1.devices.length =
        m.devices.length := by
  simp only [tryAddDevice, tryCreateDevice, hres, hfind, hinc]
  exact ⟨rfl, alistUpdate_length _ _ _⟩

/-- C5 amended, witness: re-adding the S1 descriptor itself (same major,
minor) dedups to id `"0"` without growing the registry. -/
theorem c5_dedup_amended_witness :
    (tryAddDevice addRes.1 blockInfo hOk sysfsAbsent draws0).2 =
      .ok (devId storedBlockDev)
    ∧ (tryAddDevice addRes.1 blockInfo hOk sysfsAbsent draws0).1.devices.length =
        addRes.1.devices.length :=
  c5_dedup_amended addRes.1 blockInfo hOk sysfsAbsent draws0
    { blockInfo with host_path := "/dev/sda" }
    storedBlockDev
    (.block
      { id := "0", path_on_host := "/dev/sda", is_readonly := false,
        no_drop := false, index := 0 }
      { id := "0", device_info := storedBlockInfo, attach_count := 2 })
    rfl rfl rfl

/-! ### C6 -/

/-- C6: the attach-count state machine of `GenericDevice`.  `increase`
takes 0 to 1 with skip = false, takes `k ∈ [1, u64::MAX)` to `k + 1` with
skip = true, and fails at `u64::MAX` leaving the counter unchanged (the
error arm returns before any mutation, so the caller keeps the old
device).  `decrease` fails at 0 with the counter unchanged, takes 1 to 0
with skip = false, and takes `k ≥ 2` to `k - 1` with skip = true. -/
theorem c6_attach_count_state_machine (g : GenericDevice) :
    (g.attach_count = 0 →
      genIncrease g = .ok ({ g with attach_count := 1 }, false))
    ∧ (1 ≤ g.attach_count → g.attach_count < u64Max →
      genIncrease g = .ok ({ g with attach_count := g.attach_count + 1 }, true))
    ∧ (g.attach_count = u64Max →
      genIncrease g = .error "device was attached too many times")
    ∧ (g.attach_count = 0 →
      genDecrease g = .error "detaching a device that wasn't attached")
    ∧ (g.attach_count = 1 →
      genDecrease g = .ok ({ g with attach_count := 0 }, false))
    ∧ (2 ≤ g.attach_count →
      genDecrease g = .ok ({ g with attach_count := g.attach_count - 1 }, true)) := by
  refine ⟨?_, ?_, ?_, ?_, ?_, ?_⟩
  · intro h0
    unfold genIncrease
    rw [if_pos h0]
  · intro h1 h2
    unfold genIncrease
    rw [if_neg (by omega), if_neg (Nat.ne_of_lt h2)]
  · intro hmax
    unfold genIncrease
    rw [if_neg (by rw [hmax]; unfold u64Max; omega), if_pos hmax]
  · intro h0
    unfold genDecrease
    rw [if_pos h0]
  · intro h1
    unfold genDecrease
    rw [if_neg (by omega), if_pos h1]
  · intro h2
    unfold genDecrease
    rw [if_neg (by omega), if_neg (by omega)]

/-- C6, witness: each transition of the state machine at a concrete
counter value. -/
theorem c6_attach_count_state_machine_witness :
    (genIncrease { id := "d", device_info := blockInfo, attach_count := 0 } =
      .ok ({ id := "d", device_info := blockInfo, attach_count := 1 }, false))
    ∧ (genIncrease { id := "d", device_info := blockInfo, attach_count := 5 } =
      .ok ({ id := "d", device_info := blockInfo, attach_count := 6 }, true))
    ∧ (genIncrease { id := "d", device_info := blockInfo, attach_count := u64Max } =
      .error "device was attached too many times")
    ∧ (genDecrease { id := "d", device_info := blockInfo, attach_count := 0 } =
      .error "detaching a device that wasn't attached")
    ∧ (genDecrease { id := "d", device_info := blockInfo, attach_count := 1 } =
      .ok ({ id := "d", device_info := blockInfo, attach_count := 0 }, false))
    ∧ (genDecrease { id := "d", device_info := blockInfo, attach_count := 5 } =
      .ok ({ id := "d", device_info := blockInfo, attach_count := 4 }, true)) :=
  ⟨(c6_attach_count_state_machine _).1 rfl,
   (c6_attach_count_state_machine _).2.1 (by decide) (by decide),
   (c6_attach_count_state_machine _).2.2.1 rfl,
   (c6_attach_count_state_machine _).2.2.2.1 rfl,
   (c6_attach_count_state_machine _).2.2.2.2.1 rfl,
   (c6_attach_count_state_machine _).2.2.2.2.2 (by decide)⟩

/-! ### C7 -/

/-- Adding the S1 block device with a hypervisor whose hot-plug fails. -/
def c7res : DeviceManager × Except String String :=
  tryAddDevice mkMmio blockInfo hFail sysfsAbsent draws0

/-- C7: when the hypervisor attach fails during an add that performed the
0 → 1 transition, the manager propagates the failure and rolls back: the
id is gone from the registry (the registry is exactly the pre-call empty
one), the issued ordinal 0 sits in `released_index`, and the rolled-back
record's attach count is zero (the rollback's decrease takes the attached
record from count 1 to count 0, after which the record is removed). -/
theorem c7_attach_failure_rollback :
    c7res.2 = .error "hypervisor add failed"
    ∧ c7res.1.devices = []
    ∧ alistLookup c7res.1.devices "0" = none
    ∧ c7res.1.released_index = [0]
    ∧ devAttach storedBlockDev hFail { index := some 0, drive_name := some "vda" }
        = (storedBlockDev, .error "hypervisor add failed")
    ∧ devDecrease storedBlockDev =
        .ok (.block
          { id := "0", path_on_host := "/dev/sda", is_readonly := false,
            no_drop := false, index := 0 }
          { id := "0", device_info := storedBlockInfo, attach_count := 0 },
          false)
    ∧ devAttachCount (.block
        { id := "0", path_on_host := "/dev/sda", is_readonly := false,
          no_drop := false, index := 0 }
        { id := "0", device_info := storedBlockInfo, attach_count := 0 }) = 0 :=
  ⟨rfl, rfl, rfl, rfl, rfl, rfl, rfl⟩

/-! ### C8 -/

theorem suffLen_eq (n : Nat) :
    suffLen n = if n / 26 = 0 then 1 else 1 + suffLen (n / 26 - 1) := by
  rw [suffLen]

theorem suffLen_pos (n : Nat) : 0 < suffLen n := by
  rw [suffLen_eq]
  split <;> omega

/-- The bounded loop runs the index down to a negative value within
`fuel` iterations exactly when the full biased base-26 suffix has at most
`fuel` letters. -/
theorem driveLoop_snd_none_iff (fuel n : Nat) :
    (driveLoop fuel n).2 = none ↔ suffLen n ≤ fuel := by
  induction fuel generalizing n with
  | zero =>
    constructor
    · intro hcontra
      simp [driveLoop] at hcontra
    · intro hle
      have := suffLen_pos n
      omega
  | succ fuel ih =>
    rw [suffLen_eq]
    by_cases hq : n / 26 = 0
    · simp [driveLoop, hq]
    · simp only [driveLoop, if_neg hq]
      rw [ih]
      omega

/-- C8: the virtio drive-name derivation.  The five test vectors hold;
every negative index fails with the negative-index error; and for
non-negative indices the function succeeds exactly when the biased
base-26 suffix fits in the `DISK_NAME_LEN - 2 = 30` available letters
(so it fails with the overflow error precisely when the suffix would
exceed 30 letters). -/
theorem c8_get_virt_drive_name :
    getVirtDriveName 0 = .ok "vda"
    ∧ getVirtDriveName 25 = .ok "vdz"
    ∧ getVirtDriveName 27 = .ok "vdab"
    ∧ getVirtDriveName 704 = .ok "vdaac"
    ∧ getVirtDriveName 18277 = .ok "vdzzz"
    ∧ (∀ i : Int, i < 0 → getVirtDriveName i = .error "Index cannot be negative")
    ∧ (∀ n : Nat, (∃ s, getVirtDriveName (n : Int) = .ok s) ↔ suffLen n ≤ 30) := by
  refine ⟨rfl, rfl, rfl, rfl, rfl, ?_, ?_⟩
  · intro i hi
    unfold getVirtDriveName
    rw [if_pos hi]
  · intro n
    have hnn : ¬ ((n : Int) < 0) := not_lt.mpr (Int.natCast_nonneg n)
    have htn : ((n : Int)).toNat = n := Int.toNat_natCast n
    unfold getVirtDriveName
    rw [if_neg hnn, htn]
    rcases hd : driveLoop 30 n with ⟨letters, leftover⟩
    cases leftover with
    | none =>
      constructor
      · intro _
        exact (driveLoop_snd_none_iff 30 n).mp (by rw [hd])
      · intro _
        exact ⟨"vd" ++ String.mk letters.reverse, rfl⟩
    | some l =>
      have hnle : ¬ suffLen n ≤ 30 := by
        intro hle
        have hnone := (driveLoop_snd_none_iff 30 n).mpr hle
        rw [hd] at hnone
        simp at hnone
      constructor
      · rintro ⟨s, hs⟩
        simp at hs
      · intro hle
        exact absurd hle hnle

/-- C8, witness: the negative-index part at `-1` and the capacity part at
`n = 18277` (a 3-letter suffix, well within 30). -/
theorem c8_get_virt_drive_name_witness :
    getVirtDriveName (-1) = .error "Index cannot be negative"
    ∧ ((∃ s, getVirtDriveName ((18277 : Nat) : Int) = .ok s) ↔
        suffLen 18277 ≤ 30) :=
  ⟨c8_get_virt_drive_name.2.2.2.2.2.1 (-1) (by decide),
   c8_get_virt_drive_name.2.2.2.2.2.2 18277⟩

/-! ### C9 -/

/-- A character-device-style descriptor (`/dev/null`, major 1, minor 3)
whose type is the parameter `t`. -/
def c9info (t : String) : GenericConfig :=
  { host_path := "", container_path := "/dev/null", dev_type := t,
    major := 1, minor := 3, file_mode := 0, uid := 0, gid := 0, id := "",
    bdf := none, driver_options := [], io_limits := none,
    pci_addr := none, virt_path := none }

/-- Adding the non-block descriptor to the fresh manager. -/
def c9add (t : String) : DeviceManager × Except String String :=
  tryAddDevice mkMmio (c9info t) hOk sysfsAbsent draws0

/-- Removing it once afterwards. -/
def c9rm (t : String) : DeviceManager × Except String Unit :=
  tryRemoveDevice (c9add t).1 "0" hOk

/-- C9: for every non-block device type (`"c"`, `"u"`, `"p"`), one
successful `try_add_device` leaves the stored attach count at 2 (the
manager's increment plus the second increment inside
`GenericDevice::attach`), and one subsequent `try_remove_device` only
takes the count to 1, returning success while leaving the device
registered and never calling the hypervisor detach. -/
theorem c9_generic_double_increment (t : String)
    (ht : t = "c" ∨ t = "u" ∨ t = "p") :
    (c9add t).2 = .ok "0"
    ∧ (alistLookup (c9add t).1.devices "0").map devAttachCount = some 2
    ∧ (c9rm t).2 = .ok ()
    ∧ (alistLookup (c9rm t).1.devices "0").map devAttachCount = some 1 := by
  rcases ht with rfl | rfl | rfl <;> exact ⟨rfl, rfl, rfl, rfl⟩

/-- C9, witness at `t = "c"`. -/
theorem c9_generic_double_increment_witness :
    (c9add "c").2 = .ok "0"
    ∧ (alistLookup (c9add "c").1.devices "0").map devAttachCount = some 2
    ∧ (c9rm "c").2 = .ok ()
    ∧ (alistLookup (c9rm "c").1.devices "0").map devAttachCount = some 1 :=
  c9_generic_double_increment "c" (Or.inl rfl)

/-! ### C10 -/

/-- C10: `generate_agent_device` panics (modelled as `none`, the
`.unwrap()` of `get_device_by_id`'s `None`) exactly when the id is not in
the registry; it returns a value precisely under the precondition that
the id is registered. -/
theorem c10_generate_agent_device_requires_registered (m : DeviceManager)
    (device_id : String) :
    generateAgentDevice m device_id = none ↔
      alistLookup m.devices device_id = none := by
  unfold generateAgentDevice
  cases h : alistLookup m.devices device_id <;> simp

end KataDevice
